import Mathlib

/-!
Verification of the escrowNFT-Decade orchestration scripts.

The repository consists of two brownie scripts, `scripts/main.py` and
`scripts/simulation.py`, that drive a fixed linear sequence of calls against
an escrow contract and a faucet/token contract.  We embed each script as the
trace of framework interactions it issues: deployments, contract calls,
confirmation waits and standard-output writes.  Addresses, hash values and
contract return values that are opaque to the scripts are modelled as
abstract constructors, so that equality of modelled values coincides with
the scripts reusing the very same expression.
-/

namespace EscrowScripts

/-- Addresses visible to the scripts: signer accounts derived positionally
from a seed phrase, and the two contract instances deployed by `main.py`
(`simulation.py` instead receives the most recently deployed instances as
parameters of its trace). -/
inductive Addr where
  | account (phrase : String) (i : Nat)
  | escrowContract
  | faucetContract
  deriving DecidableEq, Repr, Inhabited

/-- 32-byte values the scripts handle: `web3.keccak(text=s)` digests and the
identifier returned by the escrow contract's pure `generateTxId` function,
which the scripts treat as a deterministic function of its four arguments. -/
inductive Bytes32 where
  | keccakText (s : String)
  | txIdOf (seller buyer token : Addr) (nonce : Bytes32)
  deriving DecidableEq, Repr

/-- An argument of a contract call. -/
inductive Arg where
  | addr (a : Addr)
  | nat (n : Nat)
  | bytes (b : Bytes32)
  deriving DecidableEq, Repr

/-- A value written to standard output: `simulation.py` prints the result of
a `balanceOf` query. -/
inductive OutVal where
  | balance (token owner : Addr)
  deriving DecidableEq, Repr

/-- One framework interaction issued by a script. -/
inductive Event where
  | deploy (contractName : String) (ctorArgs : List Arg) (sender : Addr)
  | call (target : Addr) (fn : String) (args : List Arg)
      (sender : Option Addr) (value : Option Nat)
  | wait (n : Nat)
  | printOut (v : OutVal)
  deriving DecidableEq, Repr

/-- `web3.toWei("0.5", "ether")`: half an ether in wei, the smallest
currency unit. -/
def toWeiHalfEther : Nat := 500000000000000000

/-- Modelled from the spec: brownie's `accounts.from_mnemonic` (framework
code, not part of this repository) deterministically derives `count` signer
identities positionally from a seed phrase. -/
def from_mnemonic (phrase : String) (count : Nat) : List Addr :=
  (List.range count).map (fun i => Addr.account phrase i)

/-- `getAccount` of `main.py`: derive three accounts from the configured
seed phrase and return them positionally. -/
def getAccount (phrase : String) : Addr × Addr × Addr :=
  let account := from_mnemonic phrase 3
  (account[0]!, account[1]!, account[2]!)

/-- `deployContract` of `main.py`: deploy `escrowNFT` with constructor
argument `2` and `faucetNFT` with no arguments, both sent by `owner`,
waiting 3 confirmations after each; returns the interaction events together
with the two contract handles. -/
def deployContract (owner : Addr) : List Event × Addr × Addr :=
  ([Event.deploy "escrowNFT" [Arg.nat 2] owner,
    Event.wait 3,
    Event.deploy "faucetNFT" [] owner,
    Event.wait 3],
   Addr.escrowContract, Addr.faucetContract)

/-- `main` of `scripts/main.py`: the full sequence of framework
interactions it issues, as a function of the configured seed phrase. -/
def mainTrace (phrase : String) : List Event :=
  match getAccount phrase with
  | (developer, seller, buyer) =>
    match deployContract developer with
    | (deployEvents, escrow, faucet) =>
      let txId := Bytes32.txIdOf seller buyer faucet (Bytes32.keccakText "test")
      deployEvents ++
      [Event.call faucet "faucet" [] (some seller) none,
       Event.wait 3,
       Event.call faucet "approve" [Arg.addr escrow, Arg.nat 0] (some seller) none,
       Event.wait 3,
       Event.call escrow "generateTxId"
         [Arg.addr seller, Arg.addr buyer, Arg.addr faucet,
          Arg.bytes (Bytes32.keccakText "test")] none none,
       Event.call escrow "createEscrow"
         [Arg.bytes txId, Arg.nat 0, Arg.nat toWeiHalfEther, Arg.addr faucet,
          Arg.addr buyer] (some seller) none,
       Event.wait 3,
       Event.call escrow "payEscrow" [Arg.bytes txId] (some buyer)
         (some toWeiHalfEther),
       Event.wait 3]

/-- `main` of `scripts/simulation.py`: the sequence of framework
interactions it issues.  `escrowLast` and `faucetLast` are the framework's
most recently deployed `escrowNFT[-1]` and `faucetNFT[-1]` instances. -/
def simulationTrace (phrase : String) (escrowLast faucetLast : Addr) :
    List Event :=
  let account := from_mnemonic phrase 2
  let a0 := account[0]!
  let a1 := account[1]!
  let txId := Bytes32.txIdOf a0 a1 faucetLast (Bytes32.keccakText "test")
  [Event.call faucetLast "faucet" [] (some a0) none,
   Event.wait 3,
   Event.call faucetLast "approve" [Arg.addr escrowLast, Arg.nat 0] (some a0) none,
   Event.wait 3,
   Event.call escrowLast "generateTxId"
     [Arg.addr a0, Arg.addr a1, Arg.addr faucetLast,
      Arg.bytes (Bytes32.keccakText "test")] (some a0) none,
   Event.call escrowLast "createEscrow"
     [Arg.bytes txId, Arg.nat 0, Arg.nat toWeiHalfEther, Arg.addr faucetLast,
      Arg.addr a1] (some a0) none,
   Event.wait 3,
   Event.call escrowLast "payEscrow" [Arg.bytes txId] (some a1)
     (some toWeiHalfEther),
   Event.wait 3,
   Event.call faucetLast "balanceOf" [Arg.addr a1] none none,
   Event.printOut (OutVal.balance faucetLast a1)]

/-- Does this event call the contract function named `fn`? -/
def Event.isCallTo (fn : String) : Event → Bool
  | .call _ n _ _ _ => n == fn
  | _ => false

/-- Arguments of the first call to `fn` in the trace. -/
def callArgs (fn : String) (tr : List Event) : Option (List Arg) :=
  match tr.find? (Event.isCallTo fn) with
  | some (.call _ _ args _ _) => some args
  | _ => none

/-- Sender dictionary of the first call to `fn` in the trace
(`none` for a bare call issued without transaction parameters). -/
def callSender (fn : String) (tr : List Event) : Option (Option Addr) :=
  match tr.find? (Event.isCallTo fn) with
  | some (.call _ _ _ s _) => some s
  | _ => none

/-- Attached currency value of the first call to `fn` in the trace. -/
def callValue (fn : String) (tr : List Event) : Option (Option Nat) :=
  match tr.find? (Event.isCallTo fn) with
  | some (.call _ _ _ _ v) => some v
  | _ => none

/-- The price argument (third positional argument) of the `createEscrow`
call in the trace. -/
def createEscrowPrice (tr : List Event) : Option Arg :=
  (callArgs "createEscrow" tr).bind fun args => args[2]?

/-- The token-unit argument (second positional argument) of the
`createEscrow` call in the trace. -/
def createEscrowTokenId (tr : List Event) : Option Arg :=
  (callArgs "createEscrow" tr).bind fun args => args[1]?

/-- Is this event a state-changing contract interaction?  Deployments,
`faucet`, `approve`, `createEscrow` and `payEscrow` change chain state;
`generateTxId` and `balanceOf` are view calls, and waits and output writes
touch no chain state. -/
def Event.isStateChanging : Event → Bool
  | .deploy _ _ _ => true
  | .call _ n _ _ _ =>
      n == "faucet" || n == "approve" || n == "createEscrow" || n == "payEscrow"
  | _ => false

/-- Is this event a wait for exactly 3 confirmations? -/
def Event.isWaitThree : Event → Bool
  | .wait n => n == 3
  | _ => false

/-- Every state-changing interaction in the trace is immediately followed by
a wait for exactly 3 confirmations (hence the wait comes before any further
contract interaction is issued). -/
def waitsAfterEachStateChange : List Event → Bool
  | [] => true
  | [e] => !e.isStateChanging
  | e :: e2 :: rest =>
      (!e.isStateChanging || e2.isWaitThree) &&
        waitsAfterEachStateChange (e2 :: rest)

/-- Is this event a contract interaction (deployment or call)? -/
def Event.isInteraction : Event → Bool
  | .deploy _ _ _ => true
  | .call _ _ _ _ _ => true
  | _ => false

/-- Is this event a confirmation wait? -/
def Event.isWait : Event → Bool
  | .wait _ => true
  | _ => false

/-- Is this event an output write? -/
def Event.isPrint : Event → Bool
  | .printOut _ => true
  | _ => false

/-- Label of an event: the contract or function name it addresses. -/
def Event.label : Event → String
  | .deploy n _ _ => n
  | .call _ n _ _ _ => n
  | .wait _ => "wait"
  | .printOut _ => "print"

/-- For each contract interaction that is followed by another contract
interaction later in the trace, record its label together with whether some
confirmation wait occurs strictly between the two. -/
def interactionGaps : List Event → List (String × Bool)
  | [] => []
  | e :: rest =>
      if e.isInteraction && rest.any Event.isInteraction then
        (e.label, (rest.takeWhile (fun x => !x.isInteraction)).any Event.isWait)
          :: interactionGaps rest
      else interactionGaps rest

/-- The non-address part of a call argument: token units, prices and fixed
digests are kept; addresses and address-derived identifiers are erased. -/
def Arg.nonAddressPart : Arg → Option Arg
  | .addr _ => none
  | .nat n => some (.nat n)
  | .bytes (Bytes32.keccakText s) => some (.bytes (Bytes32.keccakText s))
  | .bytes (Bytes32.txIdOf _ _ _ _) => none

/-- The sequence of contract calls of a trace, each reduced to its function
name, its non-address arguments and its attached value. -/
def callSkeletons (tr : List Event) : List (String × List Arg × Option Nat) :=
  tr.filterMap fun e =>
    match e with
    | .call _ n args _ v => some (n, args.filterMap Arg.nonAddressPart, v)
    | _ => none

/-- The transaction-identifier discipline: `generateTxId` is invoked with a
seller address, a buyer address, a token address and the nonce
`keccak("test")`; `createEscrow` receives the resulting identifier together
with that same token address and buyer address and is sent by that same
seller; and `payEscrow` receives that same identifier. -/
def TxIdConsistent (tr : List Event) : Prop :=
  ∃ s b tk : Addr,
    callArgs "generateTxId" tr =
      some [Arg.addr s, Arg.addr b, Arg.addr tk,
        Arg.bytes (Bytes32.keccakText "test")] ∧
    callArgs "createEscrow" tr =
      some [Arg.bytes (Bytes32.txIdOf s b tk (Bytes32.keccakText "test")),
        Arg.nat 0, Arg.nat toWeiHalfEther, Arg.addr tk, Arg.addr b] ∧
    callSender "createEscrow" tr = some (some s) ∧
    callArgs "payEscrow" tr =
      some [Arg.bytes (Bytes32.txIdOf s b tk (Bytes32.keccakText "test"))]

/-- Execute a straight-line script under a call layer in which `fails`
says which framework interactions raise: the script attempts its events in
order, and an unhandled raise terminates it immediately after the failing
event.  Returns the events actually issued and whether the run finished. -/
def runScript (fails : Event → Bool) : List Event → List Event × Bool
  | [] => ([], true)
  | e :: rest =>
      if fails e then ([e], false)
      else
        let r := runScript fails rest
        (e :: r.1, r.2)

theorem runScript_isTake (fails : Event → Bool) (tr : List Event) :
    ∃ n, (runScript fails tr).1 = tr.take n := by
  induction tr with
  | nil => exact ⟨0, rfl⟩
  | cons e rest ih =>
      cases hfe : fails e with
      | true => exact ⟨1, by simp [runScript, hfe]⟩
      | false =>
          obtain ⟨n, hn⟩ := ih
          exact ⟨n + 1, by simp [runScript, hfe, hn]⟩

theorem runScript_dropLast_ok (fails : Event → Bool) (tr : List Event) :
    ((runScript fails tr).1.dropLast.all fun e => !fails e) = true := by
  induction tr with
  | nil => rfl
  | cons e rest ih =>
      cases hfe : fails e with
      | true => simp [runScript, hfe]
      | false =>
          cases hr : (runScript fails rest).1 with
          | nil => simp [runScript, hfe, hr]
          | cons x xs =>
              rw [hr] at ih
              simp only [runScript, hfe, Bool.false_eq_true, if_false, hr,
                List.dropLast_cons₂, List.all_cons, ih, Bool.and_true, hfe,
                Bool.not_false]

/-- C1: in each script, the identifier passed to `createEscrow` and
`payEscrow` is exactly the value `generateTxId` returns, and that
`generateTxId` call is made with the same seller, buyer and faucet
addresses supplied to `createEscrow`, together with the nonce
`keccak("test")`. -/
theorem txId_matches_generateTxId (phrase : String)
    (escrowLast faucetLast : Addr) :
    TxIdConsistent (mainTrace phrase) ∧
      TxIdConsistent (simulationTrace phrase escrowLast faucetLast) :=
  ⟨⟨Addr.account phrase 1, Addr.account phrase 2, Addr.faucetContract,
      rfl, rfl, rfl, rfl⟩,
   ⟨Addr.account phrase 0, Addr.account phrase 1, faucetLast,
      rfl, rfl, rfl, rfl⟩⟩

/-- C2: in each script, every state-changing contract interaction
(deployments, `faucet`, `approve`, `createEscrow`, `payEscrow`) is
immediately followed by a wait for exactly 3 confirmations, so the wait
completes before the next contract call is issued. -/
theorem state_changes_wait_three (phrase : String)
    (escrowLast faucetLast : Addr) :
    waitsAfterEachStateChange (mainTrace phrase) = true ∧
      waitsAfterEachStateChange (simulationTrace phrase escrowLast faucetLast) =
        true :=
  ⟨rfl, rfl⟩

/-- C3 counterexample: at the concrete seed phrase "m", the run of
`main.py` writes nothing to standard output and performs no balance query
at all, so it cannot print deployed contract addresses or a final token
balance. -/
theorem main_prints_nothing :
    ((mainTrace "m").any Event.isPrint) = false ∧
      ((mainTrace "m").any (Event.isCallTo "balanceOf")) = false := by
  decide

/-- C3 amended: only `simulation.py` obtains a final token balance — by
querying the buyer's balance after the pay step (the `payEscrow` call is at
index 7, the query at index 9) — and prints it to standard output;
`main.py` issues no balance query and no output write. -/
theorem only_simulation_prints_balance (phrase : String)
    (escrowLast faucetLast : Addr) :
    ((mainTrace phrase).any Event.isPrint) = false ∧
      ((mainTrace phrase).any (Event.isCallTo "balanceOf")) = false ∧
      (simulationTrace phrase escrowLast faucetLast).drop 9 =
        [Event.call faucetLast "balanceOf" [Arg.addr (Addr.account phrase 1)]
           none none,
         Event.printOut (OutVal.balance faucetLast (Addr.account phrase 1))] ∧
      (simulationTrace phrase escrowLast faucetLast).findIdx
          (Event.isCallTo "payEscrow") = 7 :=
  ⟨rfl, rfl, rfl, rfl⟩

/-- C4: in each script, the value the buyer attaches to `payEscrow` equals
the price supplied to `createEscrow`, both being 0.5 ether in wei. -/
theorem pay_value_equals_create_price (phrase : String)
    (escrowLast faucetLast : Addr) :
    callValue "payEscrow" (mainTrace phrase) = some (some toWeiHalfEther) ∧
      createEscrowPrice (mainTrace phrase) = some (Arg.nat toWeiHalfEther) ∧
      callValue "payEscrow" (simulationTrace phrase escrowLast faucetLast) =
        some (some toWeiHalfEther) ∧
      createEscrowPrice (simulationTrace phrase escrowLast faucetLast) =
        some (Arg.nat toWeiHalfEther) ∧
      toWeiHalfEther = 5 * 10 ^ 17 :=
  ⟨rfl, rfl, rfl, rfl, by norm_num [toWeiHalfEther]⟩

/-- C5: signer derivation is deterministic — two runs of the
account-resolution step with the same seed phrase and the same count
(count ≥ 2) yield identical addresses in identical order. -/
theorem signer_derivation_deterministic (p q : String) (c d : Nat)
    (hcount : 2 ≤ c) (hp : p = q) (hc : c = d) :
    from_mnemonic p c = from_mnemonic q d := by
  rw [hp, hc]

theorem signer_derivation_deterministic_witness :
    2 ≤ 3 ∧ from_mnemonic "sandwich rabbit" 3 = from_mnemonic "sandwich rabbit" 3 :=
  ⟨by decide,
   signer_derivation_deterministic "sandwich rabbit" "sandwich rabbit" 3 3
     (by decide) rfl rfl⟩

/-- C6: `main.py` first deploys `escrowNFT` with the single constructor
argument `2`, then `faucetNFT` with no constructor arguments, both sent by
the deployer identity (the account at index 0), waiting 3 confirmations
after each deployment. -/
theorem deploy_sequence (phrase : String) :
    (mainTrace phrase).take 4 =
      [Event.deploy "escrowNFT" [Arg.nat 2] (Addr.account phrase 0),
       Event.wait 3,
       Event.deploy "faucetNFT" [] (Addr.account phrase 0),
       Event.wait 3] ∧
      getAccount phrase =
        (Addr.account phrase 0, Addr.account phrase 1, Addr.account phrase 2) :=
  ⟨rfl, rfl⟩

/-- C7: in each script, the seller's `approve` call authorizes exactly the
escrow contract's address for token unit 0, and `createEscrow` is later
supplied the same token unit identifier 0. -/
theorem approve_escrow_unit_zero (phrase : String)
    (escrowLast faucetLast : Addr) :
    callArgs "approve" (mainTrace phrase) =
        some [Arg.addr Addr.escrowContract, Arg.nat 0] ∧
      callSender "approve" (mainTrace phrase) =
        some (some (Addr.account phrase 1)) ∧
      createEscrowTokenId (mainTrace phrase) = some (Arg.nat 0) ∧
      callArgs "approve" (simulationTrace phrase escrowLast faucetLast) =
        some [Arg.addr escrowLast, Arg.nat 0] ∧
      callSender "approve" (simulationTrace phrase escrowLast faucetLast) =
        some (some (Addr.account phrase 0)) ∧
      createEscrowTokenId (simulationTrace phrase escrowLast faucetLast) =
        some (Arg.nat 0) :=
  ⟨rfl, rfl, rfl, rfl, rfl, rfl⟩

/-- C8: the scripts are straight-line and catch nothing: under any call
layer, the events a script issues form an initial segment of its planned
trace, and every issued event except possibly the last one succeeded —
after a failing interaction no further interaction is issued. -/
theorem failure_stops_all_further_calls (fails : Event → Bool)
    (phrase : String) (escrowLast faucetLast : Addr) :
    (∃ n, (runScript fails (mainTrace phrase)).1 = (mainTrace phrase).take n) ∧
      ((runScript fails (mainTrace phrase)).1.dropLast.all
        fun e => !fails e) = true ∧
      (∃ n, (runScript fails (simulationTrace phrase escrowLast faucetLast)).1 =
        (simulationTrace phrase escrowLast faucetLast).take n) ∧
      ((runScript fails (simulationTrace phrase escrowLast faucetLast)).1.dropLast.all
        fun e => !fails e) = true :=
  ⟨runScript_isTake fails (mainTrace phrase),
   runScript_dropLast_ok fails (mainTrace phrase),
   runScript_isTake fails (simulationTrace phrase escrowLast faucetLast),
   runScript_dropLast_ok fails (simulationTrace phrase escrowLast faucetLast)⟩

/-- C9: from the faucet-claim step onward, `main.py` and `simulation.py`
issue the same sequence of contract calls — `faucet`, `approve`,
`generateTxId`, `createEscrow`, `payEscrow` — with equal non-address
arguments and equal attached values in each call (token unit 0, price
0.5 ether in wei, nonce `keccak("test")`); `simulation.py` additionally
ends with a `balanceOf` query absent from `main.py`. -/
theorem scripts_agree_after_deploy (phrase : String)
    (escrowLast faucetLast : Addr) :
    callSkeletons ((mainTrace phrase).drop 4) =
      [("faucet", [], none),
       ("approve", [Arg.nat 0], none),
       ("generateTxId", [Arg.bytes (Bytes32.keccakText "test")], none),
       ("createEscrow", [Arg.nat 0, Arg.nat toWeiHalfEther], none),
       ("payEscrow", [], some toWeiHalfEther)] ∧
      callSkeletons (simulationTrace phrase escrowLast faucetLast) =
        callSkeletons ((mainTrace phrase).drop 4) ++ [("balanceOf", [], none)] :=
  ⟨rfl, rfl⟩

/-- C10: in each script, `generateTxId` is the only contract interaction
with a later contract interaction and no confirmation wait in between; it
is a bare call with no sender in `main.py` but carries the explicit sender
`account[0]` in `simulation.py`. -/
theorem generateTxId_only_unwaited_call (phrase : String)
    (escrowLast faucetLast : Addr) :
    interactionGaps (mainTrace phrase) =
      [("escrowNFT", true), ("faucetNFT", true), ("faucet", true),
       ("approve", true), ("generateTxId", false), ("createEscrow", true)] ∧
      interactionGaps (simulationTrace phrase escrowLast faucetLast) =
        [("faucet", true), ("approve", true), ("generateTxId", false),
         ("createEscrow", true), ("payEscrow", true)] ∧
      callSender "generateTxId" (mainTrace phrase) = some none ∧
      callSender "generateTxId" (simulationTrace phrase escrowLast faucetLast) =
        some (some (Addr.account phrase 0)) :=
  ⟨rfl, rfl, rfl, rfl⟩

end EscrowScripts
